import Mathlib

/-!
Shallow embedding of the hikami RISC-V hypervisor core (Rust sources under
src/), together with theorems settling the frozen claims about it.

Machine integers (u64/usize) are modelled as Nat with explicit reductions
modulo 2^64 (or 2^32) exactly where the Rust code wraps or truncates.
Fallible paths (panic, todo) are modelled with Option/Except; external
library callbacks (SBI sub-handlers, PLIC emulation, address translation)
appear as function parameters so the dispatch code itself stays exactly the
code of the source.
-/

namespace Hikami

/-! ## Guest context

Modelled from the spec: the Context type lives in src/guest/context.rs,
which is not part of the provided sources.  Per the spec (section 3 and
4.C) it is the ordered tuple of the integer registers x1..x31 plus sepc
and sstatus, with accessors xreg / set_xreg / sepc / set_sepc /
sstatus / set_sstatus. -/
structure Context where
  xregs : Nat → Nat
  sepcVal : Nat
  sstatusVal : Nat

def Context.xreg (c : Context) (i : Nat) : Nat := c.xregs i

def Context.set_xreg (c : Context) (i v : Nat) : Context :=
  { c with xregs := fun j => if j = i then v else c.xregs j }

def Context.sepc (c : Context) : Nat := c.sepcVal

def Context.set_sepc (c : Context) (v : Nat) : Context := { c with sepcVal := v }

def Context.sstatus (c : Context) : Nat := c.sstatusVal

/-! ## Page-table flags and memory maps (src/memmap/page_table.rs) -/

/-- PTE flag bits, from the PteFlag enum in src/memmap/page_table.rs. -/
inductive PteFlag where
  | Valid
  | Read
  | Write
  | Exec
  | User
  | Global
  | Accessed
  | Dirty
deriving DecidableEq, Repr

/-- A MemoryMap is a triple of a guest range, a host range and a flag
set.  Modelled from the spec (section 3): the struct itself lives in
src/memmap.rs which is not part of the provided sources; ranges are
half-open start..end pairs. -/
structure MemoryMap where
  virt : Nat × Nat
  phys : Nat × Nat
  flags : List PteFlag
deriving DecidableEq, Repr

/-! ## hstart entry assertions (src/hypervisor_init.rs lines 21-27) -/

/-- Max number of HART, from src/memmap/constant.rs. -/
def MAX_HART_NUM : Nat := 8

inductive HstartResult where
  | panicked
  | proceeds (hart_id dtb_addr : Nat)
deriving DecidableEq, Repr

/-- The entry assertions of hstart: assert_eq!(hart_id, 0) then
assert_ne!(dtb_addr, 0); a failed assertion panics before any guest is
created. -/
def hstart (hart_id dtb_addr : Nat) : HstartResult :=
  if hart_id = 0 then
    if dtb_addr ≠ 0 then .proceeds hart_id dtb_addr else .panicked
  else .panicked

/-! ## hart_entry exit path (src/hypervisor_init.rs lines 162-233)

The asm block sets sp to stack_top - 272, loads sstatus from 32*8(sp)
and sepc from 33*8(sp), loads the general registers from i*8(sp) except
x2 (sp, obtained by csrrw with sscratch, which was written 0 just
before) and x11 (a1, which carries dtb_addr), and executes sret.
mem maps a byte address to the 64-bit word an ld would load there. -/

structure VmEntryState where
  sstatus : Nat
  sepc : Nat
  xreg : Nat → Nat

def hart_entry (stack_top dtb_addr : Nat) (mem : Nat → Nat) : VmEntryState :=
  let sp := stack_top - 272
  { sstatus := mem (sp + 32 * 8)
    sepc := mem (sp + 33 * 8)
    xreg := fun i =>
      if i = 0 then 0
      else if i = 2 then 0
      else if i = 11 then dtb_addr
      else mem (sp + i * 8) }

/-! ## hs_forward_exception (src/trap/hypervisor_supervisor/exception.rs
lines 28-42) -/

/-- Result of the forward-to-guest protocol: the values written to the
guest virtual-supervisor CSRs and the updated context. -/
structure ForwardResult where
  vsepc : Nat
  vscause : Nat
  vstval : Nat
  context : Context

/-- csrw vsepc ← context.sepc; csrw vscause ← scause; csrw vstval ←
stval; context.set_sepc(vstvec). -/
def hs_forward_exception (ctx : Context) (scause_bits stval_bits vstvec_bits : Nat) :
    ForwardResult :=
  { vsepc := ctx.sepc
    vscause := scause_bits
    vstval := stval_bits
    context := ctx.set_sepc vstvec_bits }

/-! ## setup_g_stage_page_table_from_elf (src/guest.rs lines 91-140) -/

/-- The ELF program-header fields consumed by the loader; all are u64
(p_type and p_flags are u32) in the elf crate. -/
structure ProgHeader where
  p_type : Nat
  p_flags : Nat
  p_paddr : Nat
  p_filesz : Nat
  p_memsz : Nat
  p_align : Nat
deriving DecidableEq, Repr

/-- align_size from src/guest.rs line 99:
((size + (align - 1)) and not (align - 1)) on u64, wrapping. -/
def align_size (size align : Nat) : Nat :=
  let am1 := (align + (2 ^ 64 - 1)) % 2 ^ 64
  ((size % 2 ^ 64 + am1) % 2 ^ 64) &&& (am1 ^^^ (2 ^ 64 - 1))

/-- PT_LOAD filter from src/guest.rs line 109:
p_type == PT_LOAD (1) and p_filesz > 0. -/
def isLoadSeg (ph : ProgHeader) : Bool :=
  ph.p_type == 1 && ph.p_filesz != 0

/-- The identity region of a segment: region_start = guest_base +
p_paddr, region_end = region_start + align_size(p_memsz, p_align). -/
def segRegion (guest_base : Nat) (ph : ProgHeader) : Nat × Nat :=
  let rs := guest_base + ph.p_paddr
  (rs, rs + align_size ph.p_memsz ph.p_align)

/-- Flag translation of src/guest.rs lines 123-129; flag combinations
other than 0b100..0b111 panic (none). -/
def segFlags (ph : ProgHeader) : Option (List PteFlag) :=
  match ph.p_flags &&& 0b111 with
  | 0b100 => some [.Dirty, .Accessed, .Read, .User, .Valid]
  | 0b101 => some [.Dirty, .Accessed, .Exec, .Read, .User, .Valid]
  | 0b110 => some [.Dirty, .Accessed, .Write, .Read, .User, .Valid]
  | 0b111 => some [.Dirty, .Accessed, .Exec, .Write, .Read, .User, .Valid]
  | _ => none

/-- The loop of setup_g_stage_page_table_from_elf: pushes one identity
MemoryMap per loadable segment while tracking last_region, which starts
as the default range 0..0 and is replaced whenever a region with a
strictly larger end appears. -/
def buildSegMaps (guest_base : Nat) :
    List ProgHeader → Nat × Nat → Option (List MemoryMap × (Nat × Nat))
  | [], last => some ([], last)
  | ph :: rest, last =>
    if isLoadSeg ph then
      match segFlags ph with
      | none => none
      | some fl =>
        let r := segRegion guest_base ph
        let last2 := if last.2 < r.2 then r else last
        match buildSegMaps guest_base rest last2 with
        | none => none
        | some (ms, lfin) => some (⟨r, r, fl⟩ :: ms, lfin)
    else buildSegMaps guest_base rest last

/-- The whole memory-map construction of
setup_g_stage_page_table_from_elf: the segment maps followed by the
final identity map last_region.end..0xffffffff with flags
Dirty, Accessed, Exec, Write, Read, User, Valid.  The resulting list is
what is handed to sv39x4::generate_page_table. -/
def setup_g_stage_maps (guest_base : Nat) (phs : List ProgHeader) :
    Option (List MemoryMap) :=
  match buildSegMaps guest_base phs (0, 0) with
  | none => none
  | some (ms, last) =>
      some (ms ++ [⟨(last.2, 0xffffffff), (last.2, 0xffffffff),
        [.Dirty, .Accessed, .Exec, .Write, .Read, .User, .Valid]⟩])

/-- The identity MemoryMap a loadable segment contributes. -/
def segIdentityMap (guest_base : Nat) (ph : ProgHeader) : MemoryMap :=
  ⟨segRegion guest_base ph, segRegion guest_base ph, (segFlags ph).getD []⟩

/-- End of the highest-ending segment region (0 when no segment loads). -/
def maxSegEnd (guest_base : Nat) (phs : List ProgHeader) : Nat :=
  ((phs.filter isLoadSeg).map (fun ph => (segRegion guest_base ph).2)).foldl max 0

theorem buildSegMaps_spec (guest_base : Nat) (phs : List ProgHeader) :
    ∀ last ms lfin, buildSegMaps guest_base phs last = some (ms, lfin) →
      ms = (phs.filter isLoadSeg).map (segIdentityMap guest_base) ∧
      lfin.2 = ((phs.filter isLoadSeg).map
        (fun ph => (segRegion guest_base ph).2)).foldl max last.2 := by
  induction phs with
  | nil =>
    intro last ms lfin h
    simp [buildSegMaps] at h
    simp [h.1.symm, h.2.symm]
  | cons ph rest ih =>
    intro last ms lfin h
    by_cases hl : isLoadSeg ph
    · rw [buildSegMaps, if_pos hl] at h
      rcases hfl : segFlags ph with _ | fl
      · simp only [hfl] at h
        exact absurd h (by simp)
      · simp only [hfl] at h
        rcases hrec : buildSegMaps guest_base rest
            (if last.2 < (segRegion guest_base ph).2 then segRegion guest_base ph
             else last) with _ | p
        · simp only [hrec] at h
          exact absurd h (by simp)
        · simp only [hrec] at h
          obtain ⟨ms0, lfin0⟩ := p
          simp only [Option.some.injEq, Prod.mk.injEq] at h
          obtain ⟨hms, hlf⟩ := h
          obtain ⟨ihms, ihlf⟩ := ih _ _ _ hrec
          subst hms hlf
          constructor
          · simp [List.filter_cons, hl, ihms, segIdentityMap, hfl]
          · rw [ihlf]
            have hsnd : (if last.2 < (segRegion guest_base ph).2
                then segRegion guest_base ph else last).2
                = max last.2 (segRegion guest_base ph).2 := by
              rcases Nat.lt_or_ge last.2 (segRegion guest_base ph).2 with hlt | hge
              · rw [if_pos hlt, Nat.max_eq_right (Nat.le_of_lt hlt)]
              · rw [if_neg (Nat.not_lt.mpr hge), Nat.max_eq_left hge]
            rw [hsnd]
            simp [List.filter_cons, hl, List.foldl_cons]
    · rw [buildSegMaps, if_neg hl] at h
      obtain ⟨ihms, ihlf⟩ := ih _ _ _ h
      constructor
      · simp [List.filter_cons, hl, ihms]
      · simp [List.filter_cons, hl, ihlf]

/-- C2: whenever setup_g_stage_page_table_from_elf succeeds, the map
list it builds is one identity MemoryMap per loadable segment (p_type =
PT_LOAD and p_filesz > 0) followed by exactly one additional identity
MemoryMap from the end of the highest-ending segment region up to
0xffffffff with flags Dirty, Accessed, Exec, Write, Read, User,
Valid. -/
theorem setup_g_stage_appends_tail_identity_map (guest_base : Nat)
    (phs : List ProgHeader) (maps : List MemoryMap)
    (h : setup_g_stage_maps guest_base phs = some maps) :
    maps = (phs.filter isLoadSeg).map (segIdentityMap guest_base) ++
      [⟨(maxSegEnd guest_base phs, 0xffffffff),
        (maxSegEnd guest_base phs, 0xffffffff),
        [.Dirty, .Accessed, .Exec, .Write, .Read, .User, .Valid]⟩] := by
  rw [setup_g_stage_maps] at h
  rcases hb : buildSegMaps guest_base phs (0, 0) with _ | p
  · rw [hb] at h; exact absurd h (by simp)
  · rw [hb] at h
    obtain ⟨ms, last⟩ := p
    simp only [Option.some.injEq] at h
    obtain ⟨hms, hlf⟩ := buildSegMaps_spec guest_base phs _ _ _ hb
    rw [← h, hms, maxSegEnd, ← hlf]

/-- Witness for setup_g_stage_appends_tail_identity_map: a single RX
segment of aligned size 0x2000 at p_paddr 0 with guest base
0x80000000. -/
theorem setup_g_stage_tail_witness :
    setup_g_stage_maps 0x80000000 [⟨1, 0b101, 0, 0x100, 0x2000, 0x1000⟩]
      = some (([⟨1, 0b101, 0, 0x100, 0x2000, 0x1000⟩].filter
          isLoadSeg).map (segIdentityMap 0x80000000) ++
        [⟨(maxSegEnd 0x80000000 [⟨1, 0b101, 0, 0x100, 0x2000, 0x1000⟩], 0xffffffff),
          (maxSegEnd 0x80000000 [⟨1, 0b101, 0, 0x100, 0x2000, 0x1000⟩], 0xffffffff),
          [.Dirty, .Accessed, .Exec, .Write, .Read, .User, .Valid]⟩]) := by
  have hsome : ∃ maps, setup_g_stage_maps 0x80000000
      [⟨1, 0b101, 0, 0x100, 0x2000, 0x1000⟩] = some maps := ⟨_, rfl⟩
  obtain ⟨maps, hmaps⟩ := hsome
  rw [hmaps, setup_g_stage_appends_tail_identity_map 0x80000000 _ maps hmaps]

/-! ## SBI dispatch (src/trap/hypervisor_supervisor/exception.rs
lines 44-96)

The three sub-handlers (sbi_base_handler, sbi_rfnc_handler,
sbi_fwft_handler) live in the sbi_handler submodule, which is not part
of the provided sources; they appear as function parameters.  The
extension-id constants come from the sbi_spec crate (EID_BASE, EID_RFNC)
and from the local EID_FWFT constant. -/

structure SbiRet where
  error : Int
  value : Int

/-- Rust i64 to u64 cast: two-complement value of the integer. -/
def toU64 (i : Int) : Nat := (i % (2 ^ 64 : Int)).toNat

def EID_BASE : Nat := 0x10

def EID_RFNC : Nat := 0x52464E43

def EID_FWFT : Nat := 0x46574654

/-- The argument array [x10..x14] passed to the rfnc and fwft
sub-handlers. -/
def sbiArgs (ctx : Context) : List Nat :=
  [ctx.xreg 10, ctx.xreg 11, ctx.xreg 12, ctx.xreg 13, ctx.xreg 14]

/-- sbi_vs_mode_handler: dispatch on the extension id in x17 with the
function id in x16; the returned pair goes to x10 (error) and x11
(value); an unknown extension id panics (none). -/
def sbi_vs_mode_handler (base_h : Nat → SbiRet) (rfnc_h fwft_h : Nat → List Nat → SbiRet)
    (ctx : Context) : Option Context :=
  let ext_id := ctx.xreg 17
  let func_id := ctx.xreg 16
  let arguments := sbiArgs ctx
  let ret : Option SbiRet :=
    if ext_id = EID_BASE then some (base_h func_id)
    else if ext_id = EID_RFNC then some (rfnc_h func_id arguments)
    else if ext_id = EID_FWFT then some (fwft_h func_id arguments)
    else none
  ret.map fun r => (ctx.set_xreg 10 (toU64 r.error)).set_xreg 11 (toU64 r.value)

/-- The EcallFromVsMode branch of trap_exception: run
sbi_vs_mode_handler, then context.set_sepc(context.sepc() + 4). -/
def ecall_from_vs (base_h : Nat → SbiRet) (rfnc_h fwft_h : Nat → List Nat → SbiRet)
    (ctx : Context) : Option Context :=
  (sbi_vs_mode_handler base_h rfnc_h fwft_h ctx).map fun c => c.set_sepc (c.sepc + 4)

theorem Context.sepc_set_xreg (c : Context) (i v : Nat) :
    (c.set_xreg i v).sepc = c.sepc := rfl

/-! ## Guest-page-fault dispatch (src/trap/hypervisor_supervisor/exception.rs
lines 72-162)

The PLIC emulation functions emulate_read / emulate_write live in
src/device/plic.rs, which is not part of the provided sources; they
appear as function parameters, as does the decoded register index of
the faulting instruction (decoding is done by the external raki
crate). -/

/-- The error type of PLIC device emulation, per the spec (4.E). -/
inductive DeviceEmulateError where
  | InvalidAddress
  | InvalidContextId
  | ReservedRegister
deriving DecidableEq, Repr

/-- Outcome of one exception dispatch: plain exit to the guest with an
updated context, exit after the forward-to-guest protocol ran, a
hypervisor panic, or a hang on the non-reentrant HYPERVISOR_DATA spin
lock (the lock() call spins forever and control never returns). -/
inductive TrapOutcome where
  | exitWith (ctx : Context)
  | forwarded (f : ForwardResult)
  | panicked
  | deadlocked

/-- update_sepc_by_htinst_value: htinst bit 1 clear means a compressed
instruction (advance 2), otherwise advance 4. -/
def update_sepc_by_htinst_value (htinst_inst_value : Nat) (ctx : Context) : Context :=
  if (htinst_inst_value &&& 0b10) >>> 1 = 0 then ctx.set_sepc (ctx.sepc + 2)
  else ctx.set_sepc (ctx.sepc + 4)

/-- A call of hs_forward_exception as seen from a dispatch site: the
function starts with HYPERVISOR_DATA.lock() (exception.rs line 30) on
a non-reentrant spin::Mutex taken with interrupts disabled.  lock_held
records whether the calling arm still holds the guard of that same
mutex: if it does, the lock() spins forever and the protocol body never
runs (none); otherwise the protocol completes. -/
def hs_forward_exception_call (lock_held : Bool) (ctx : Context)
    (scause_bits stval_bits vstvec_bits : Nat) : Option ForwardResult :=
  if lock_held then none
  else some (hs_forward_exception ctx scause_bits stval_bits vstvec_bits)

/-- The LoadGuestPageFault branch (exception.rs lines 100-128):
fault_addr = htval << 2; the HYPERVISOR_DATA guard acquired at line 109
is held across the whole match.  On Ok the loaded value goes to rd and
sepc advances (the guard drops when the arm ends); on any emulation
error the arm calls hs_forward_exception with the guard still held, so
the re-lock inside it never returns. -/
def handle_load_guest_page_fault (emulate_read : Nat → Except DeviceEmulateError Nat)
    (htval_bits htinst_bits rd : Nat) (ctx : Context)
    (scause_bits stval_bits vstvec_bits : Nat) : TrapOutcome :=
  let fault_addr := htval_bits <<< 2
  match emulate_read fault_addr with
  | .ok value =>
      .exitWith (update_sepc_by_htinst_value htinst_bits (ctx.set_xreg rd value))
  | .error _ =>
      match hs_forward_exception_call true ctx scause_bits stval_bits vstvec_bits with
      | some f => .forwarded f
      | none => .deadlocked

/-- The StoreAmoGuestPageFault branch (exception.rs lines 129-155): the
HYPERVISOR_DATA guard is acquired at line 138; the stored value
(xreg rs2) is truncated to u32 by try_into().unwrap(), which panics
when it does not fit.  On Ok the guard is explicitly dropped (line 150)
before hstrap_exit, with sepc advanced; otherwise control falls through
to hs_forward_exception with the guard still held, so the re-lock
inside it never returns. -/
def handle_store_guest_page_fault
    (emulate_write : Nat → Nat → Except DeviceEmulateError Unit)
    (htval_bits htinst_bits rs2 : Nat) (ctx : Context)
    (scause_bits stval_bits vstvec_bits : Nat) : TrapOutcome :=
  let fault_addr := htval_bits <<< 2
  let store_value := ctx.xreg rs2
  if store_value < 2 ^ 32 then
    match emulate_write fault_addr store_value with
    | .ok _ => .exitWith (update_sepc_by_htinst_value htinst_bits ctx)
    | .error _ =>
        match hs_forward_exception_call true ctx scause_bits stval_bits vstvec_bits with
        | some f => .forwarded f
        | none => .deadlocked
  else .panicked

/-! ## Zicfiss emulation (src/emulate_extension/zicfiss.rs)

The VS-stage and G-stage translations (vs_stage_trans_addr,
g_stage_trans_addr, in the missing page-table submodules) and guest
memory appear as function parameters; mem maps a host physical address
to the 64-bit word stored there.  pseudo_vs_exception (in the missing
emulate_extension module) is modelled as the exception output of a
step. -/

/-- Software-check exception (cause value), zicfiss.rs line 20. -/
def SOFTWARE_CHECK_EXCEPTION : Nat := 18

/-- Shadow stack fault (tval value), zicfiss.rs line 22. -/
def SHADOW_STACK_FAULT : Nat := 3

/-- The Zicfiss singleton state: ssp CSR plus the emulated SSE bits. -/
structure ZicfissState where
  ssp : Nat
  henv_sse : Bool
  senv_sse : Bool
deriving DecidableEq, Repr

/-- is_ss_enable: sstatus.SPP = 0 selects senv_sse, otherwise
henv_sse. -/
def is_ss_enable (z : ZicfissState) (sstatus : Nat) : Bool :=
  let spp := (sstatus >>> 8) &&& 1
  if spp = 0 then z.senv_sse else z.henv_sse

/-- ss_push: decrement ssp by 8 (wrapping u64), then write the value
through VS-stage and G-stage translation of the new ssp. -/
def ss_push (vs_trans g_trans mem : Nat → Nat) (z : ZicfissState) (value : Nat) :
    (Nat → Nat) × ZicfissState :=
  let z2 := { z with ssp := (z.ssp + (2 ^ 64 - 8)) % 2 ^ 64 }
  (fun a => if a = g_trans (vs_trans z2.ssp) then value else mem a, z2)

/-- ss_pop: read through VS-stage and G-stage translation of ssp, then
increment ssp by 8 (wrapping u64). -/
def ss_pop (vs_trans g_trans mem : Nat → Nat) (z : ZicfissState) :
    Nat × ZicfissState :=
  (mem (g_trans (vs_trans z.ssp)), { z with ssp := (z.ssp + 8) % 2 ^ 64 })

/-- The Zicfiss opcodes handled by EmulateExtension::instruction, each
carrying the decoded register operand it reads or writes. -/
inductive ZicfissOp where
  | SSPUSH (rs2 : Nat)
  | C_SSPUSH (rd : Nat)
  | SSPOPCHK (rs1 : Nat)
  | C_SSPOPCHK (rd : Nat)
  | SSRDP (rd : Nat)
  | SSAMOSWAP_W
  | SSAMOSWAP_D
deriving DecidableEq, Repr

/-- Result of one emulated Zicfiss instruction: the new singleton
state, guest context and memory, and the pseudo VS-exception raised, if
any, as a (cause, tval) pair. -/
structure ZicfissStep where
  z : ZicfissState
  ctx : Context
  mem : Nat → Nat
  exception : Option (Nat × Nat)

/-- EmulateExtension::instruction for Zicfiss (zicfiss.rs lines
84-132); SSAMOSWAP is todo!() and panics (none). -/
def zicfiss_instruction (vs_trans g_trans mem : Nat → Nat) (z : ZicfissState)
    (ctx : Context) (op : ZicfissOp) : Option ZicfissStep :=
  match op with
  | .SSPUSH rs2 =>
      if is_ss_enable z ctx.sstatus then
        let pz := ss_push vs_trans g_trans mem z (ctx.xreg rs2)
        some ⟨pz.2, ctx, pz.1, none⟩
      else some ⟨z, ctx, mem, none⟩
  | .C_SSPUSH rd =>
      if is_ss_enable z ctx.sstatus then
        let pz := ss_push vs_trans g_trans mem z (ctx.xreg rd)
        some ⟨pz.2, ctx, pz.1, none⟩
      else some ⟨z, ctx, mem, none⟩
  | .SSPOPCHK rs1 =>
      if is_ss_enable z ctx.sstatus then
        let pz := ss_pop vs_trans g_trans mem z
        if pz.1 ≠ ctx.xreg rs1 then
          some ⟨pz.2, ctx, mem, some (SOFTWARE_CHECK_EXCEPTION, SHADOW_STACK_FAULT)⟩
        else some ⟨pz.2, ctx, mem, none⟩
      else some ⟨z, ctx, mem, none⟩
  | .C_SSPOPCHK rd =>
      if is_ss_enable z ctx.sstatus then
        let pz := ss_pop vs_trans g_trans mem z
        if pz.1 ≠ ctx.xreg rd then
          some ⟨pz.2, ctx, mem, some (SOFTWARE_CHECK_EXCEPTION, SHADOW_STACK_FAULT)⟩
        else some ⟨pz.2, ctx, mem, none⟩
      else some ⟨z, ctx, mem, none⟩
  | .SSRDP rd =>
      if is_ss_enable z ctx.sstatus then
        some ⟨z, ctx.set_xreg rd z.ssp, mem, none⟩
      else some ⟨z, ctx.set_xreg rd 0, mem, none⟩
  | .SSAMOSWAP_W => none
  | .SSAMOSWAP_D => none

/-- The Zicsr opcode variants of the raki decoder that reach
csr_field. -/
inductive ZicsrOp where
  | CSRRW
  | CSRRS
  | CSRRC
  | CSRRWI
  | CSRRSI
  | CSRRCI
deriving DecidableEq, Repr

/-- EmulateExtension::csr_field for Zicfiss (zicfiss.rs lines 180-226):
for senvcfg (0x10a) the emulated SSE bit is OR-ed into the read value
and each write variant with bit 3 of the written value set steers
senv_sse (set for CSRRW/CSRRS and immediates, cleared for
CSRRC/CSRRCI); any other CSR is untouched.  Returns the read value and
the new state. -/
def csr_field (z : ZicfissState) (csr_num : Nat) (op : ZicsrOp)
    (write_to_csr_value read_csr_value : Nat) : Nat × ZicfissState :=
  if csr_num = 0x10a then
    let read2 := read_csr_value ||| ((if z.senv_sse then 1 else 0) <<< 3)
    let z2 :=
      match op with
      | .CSRRW =>
          if (write_to_csr_value >>> 3) &&& 1 = 1 then { z with senv_sse := true } else z
      | .CSRRS =>
          if (write_to_csr_value >>> 3) &&& 1 = 1 then { z with senv_sse := true } else z
      | .CSRRC =>
          if (write_to_csr_value >>> 3) &&& 1 = 1 then { z with senv_sse := false } else z
      | .CSRRWI =>
          if (write_to_csr_value >>> 3) &&& 1 = 1 then { z with senv_sse := true } else z
      | .CSRRSI =>
          if (write_to_csr_value >>> 3) &&& 1 = 1 then { z with senv_sse := true } else z
      | .CSRRCI =>
          if (write_to_csr_value >>> 3) &&& 1 = 1 then { z with senv_sse := false } else z
    (read2, z2)
  else (read_csr_value, z)

/-! ## Device registry (src/device.rs) -/

/-- Base address and size of one registered device, fixed at FDT-parse
time. -/
structure DeviceInfo where
  paddr : Nat
  size : Nat
deriving DecidableEq, Repr

/-- PTE_FLAGS_FOR_DEVICE from src/device.rs lines 17-24. -/
def PTE_FLAGS_FOR_DEVICE : List PteFlag :=
  [.Dirty, .Accessed, .Write, .Read, .User, .Valid]

/-- Modelled from the spec: the per-device memmap() implementations
live in the device submodules (src/device/uart.rs, plic.rs, ...), which
are not part of the provided sources; per the Device trait contract and
spec 4.B each returns the identity MemoryMap over
[paddr, paddr + size) with PTE_FLAGS_FOR_DEVICE. -/
def device_memmap (d : DeviceInfo) : MemoryMap :=
  ⟨(d.paddr, d.paddr + d.size), (d.paddr, d.paddr + d.size), PTE_FLAGS_FOR_DEVICE⟩

/-- The Devices registry (src/device.rs lines 45-53). -/
structure Devices where
  uart : DeviceInfo
  virtioDevices : List DeviceInfo
  initrd : DeviceInfo
  plic : DeviceInfo
  plic_context : Nat
  clint : DeviceInfo
  pci : DeviceInfo

/-- create_device_map (src/device.rs lines 61-77): each virtio memmap
twice (the source flat-maps each device to the pair
[virt.memmap(), virt.memmap()]), then uart, initrd, plic, clint,
pci. -/
def create_device_map (d : Devices) : List MemoryMap :=
  (d.virtioDevices.flatMap fun v => [device_memmap v, device_memmap v]) ++
    [device_memmap d.uart, device_memmap d.initrd, device_memmap d.plic,
     device_memmap d.clint, device_memmap d.pci]

end Hikami

namespace Hikami

/-- C3: hs_forward_exception writes vsepc from the saved sepc, vscause
from scause, vstval from stval, and sets the context sepc to the guest
vstvec. -/
theorem hs_forward_exception_protocol (ctx : Context)
    (scause_bits stval_bits vstvec_bits : Nat) :
    (hs_forward_exception ctx scause_bits stval_bits vstvec_bits).vsepc = ctx.sepc ∧
    (hs_forward_exception ctx scause_bits stval_bits vstvec_bits).vscause = scause_bits ∧
    (hs_forward_exception ctx scause_bits stval_bits vstvec_bits).vstval = stval_bits ∧
    (hs_forward_exception ctx scause_bits stval_bits vstvec_bits).context.sepc
      = vstvec_bits := by
  refine ⟨rfl, rfl, rfl, rfl⟩

/-- C10: any invocation of hstart with a non-zero hart_id or a null DTB
address panics at the entry assertions, even though the data model sizes
its guest array with MAX_HART_NUM = 8. -/
theorem hstart_nonzero_hart_panics (hart_id dtb_addr : Nat)
    (h : hart_id ≠ 0 ∨ dtb_addr = 0) :
    hstart hart_id dtb_addr = .panicked ∧ MAX_HART_NUM = 8 := by
  constructor
  · rcases h with h | h
    · simp [hstart, h]
    · simp [hstart, h]
  · rfl

/-- Witness for hstart_nonzero_hart_panics at hart_id = 1, dtb_addr = 5. -/
theorem hstart_nonzero_hart_panics_witness :
    hstart 1 5 = .panicked ∧ MAX_HART_NUM = 8 :=
  hstart_nonzero_hart_panics 1 5 (Or.inl (by decide))

/-- C1 counterexample: in hart_entry the word at sp + 32*8 is loaded
into sstatus, not sepc; with stack_top = 272 (so sp = 0) and the memory
that stores its own address at every word, sepc comes out 264 = 33*8,
not 256 = 32*8. -/
theorem hart_entry_sepc_not_at_offset_32 :
    (hart_entry 272 0 (fun a => a)).sepc ≠ 32 * 8 ∧
    (hart_entry 272 0 (fun a => a)).sstatus = 32 * 8 ∧
    (hart_entry 272 0 (fun a => a)).sepc = 33 * 8 := by
  refine ⟨by decide, rfl, rfl⟩

/-- C1 amended: hart_entry reads the context frame at sp = stack_top -
272 (a 34*8 = 272 byte frame), restoring sstatus from offset 32*8, sepc
from offset 33*8, and each general register xi (other than x0, x2/sp
and x11/a1) from offset i*8. -/
theorem hart_entry_restores_sstatus_at_32_sepc_at_33
    (stack_top dtb_addr : Nat) (mem : Nat → Nat) :
    (hart_entry stack_top dtb_addr mem).sstatus = mem (stack_top - 272 + 32 * 8) ∧
    (hart_entry stack_top dtb_addr mem).sepc = mem (stack_top - 272 + 33 * 8) ∧
    (hart_entry stack_top dtb_addr mem).xreg 11 = dtb_addr ∧
    ∀ i, i ≠ 0 → i ≠ 2 → i ≠ 11 →
      (hart_entry stack_top dtb_addr mem).xreg i = mem (stack_top - 272 + i * 8) := by
  refine ⟨rfl, rfl, rfl, ?_⟩
  intro i h0 h2 h11
  simp [hart_entry, h0, h2, h11]

/-- Witness for hart_entry_restores_sstatus_at_32_sepc_at_33 at
stack_top = 272, dtb_addr = 7, identity memory, register x5. -/
theorem hart_entry_restore_witness :
    (hart_entry 272 7 (fun a => a)).sstatus = (fun a : Nat => a) (272 - 272 + 32 * 8) ∧
    (hart_entry 272 7 (fun a => a)).xreg 5 = (fun a : Nat => a) (272 - 272 + 5 * 8) :=
  ⟨(hart_entry_restores_sstatus_at_32_sepc_at_33 272 7 (fun a => a)).1,
   (hart_entry_restores_sstatus_at_32_sepc_at_33 272 7 (fun a => a)).2.2.2 5
     (by decide) (by decide) (by decide)⟩

/-- C4: for an Ecall-from-VS with a recognized extension id in x17, the
dispatcher invokes the sub-handler selected by x17 with the function id
from x16 (and the arguments x10..x14 where the handler takes them),
writes the returned error to x10 and value to x11, and advances sepc by
exactly 4. -/
theorem ecall_from_vs_dispatch (bh : Nat → SbiRet) (rh fh : Nat → List Nat → SbiRet)
    (ctx : Context)
    (h : ctx.xreg 17 = EID_BASE ∨ ctx.xreg 17 = EID_RFNC ∨ ctx.xreg 17 = EID_FWFT) :
    ∃ ret : SbiRet,
      (ctx.xreg 17 = EID_BASE → ret = bh (ctx.xreg 16)) ∧
      (ctx.xreg 17 = EID_RFNC → ret = rh (ctx.xreg 16) (sbiArgs ctx)) ∧
      (ctx.xreg 17 = EID_FWFT → ret = fh (ctx.xreg 16) (sbiArgs ctx)) ∧
      ecall_from_vs bh rh fh ctx =
        some (((ctx.set_xreg 10 (toU64 ret.error)).set_xreg 11
          (toU64 ret.value)).set_sepc (ctx.sepc + 4)) := by
  rcases h with h | h | h
  · refine ⟨bh (ctx.xreg 16), fun _ => rfl, ?_, ?_, ?_⟩
    · intro h2; exact absurd (h.symm.trans h2) (by decide)
    · intro h2; exact absurd (h.symm.trans h2) (by decide)
    · simp [ecall_from_vs, sbi_vs_mode_handler, h, Context.sepc_set_xreg,
        EID_BASE, EID_RFNC, EID_FWFT]
  · refine ⟨rh (ctx.xreg 16) (sbiArgs ctx), ?_, fun _ => rfl, ?_, ?_⟩
    · intro h2; exact absurd (h.symm.trans h2) (by decide)
    · intro h2; exact absurd (h.symm.trans h2) (by decide)
    · simp [ecall_from_vs, sbi_vs_mode_handler, h, Context.sepc_set_xreg,
        EID_BASE, EID_RFNC, EID_FWFT]
  · refine ⟨fh (ctx.xreg 16) (sbiArgs ctx), ?_, ?_, fun _ => rfl, ?_⟩
    · intro h2; exact absurd (h.symm.trans h2) (by decide)
    · intro h2; exact absurd (h.symm.trans h2) (by decide)
    · simp [ecall_from_vs, sbi_vs_mode_handler, h, Context.sepc_set_xreg,
        EID_BASE, EID_RFNC, EID_FWFT]

/-- Witness for ecall_from_vs_dispatch: a context with x17 = 0x10 (Base
extension). -/
theorem ecall_from_vs_dispatch_witness :
    ∃ ret : SbiRet,
      ((Context.mk (fun i => if i = 17 then 0x10 else 0) 0 0).xreg 17 = EID_BASE →
        ret = (fun _ : Nat => SbiRet.mk 0 1)
          ((Context.mk (fun i => if i = 17 then 0x10 else 0) 0 0).xreg 16)) ∧
      ((Context.mk (fun i => if i = 17 then 0x10 else 0) 0 0).xreg 17 = EID_RFNC →
        ret = (fun (_ : Nat) (_ : List Nat) => SbiRet.mk 0 2)
          ((Context.mk (fun i => if i = 17 then 0x10 else 0) 0 0).xreg 16)
          (sbiArgs (Context.mk (fun i => if i = 17 then 0x10 else 0) 0 0))) ∧
      ((Context.mk (fun i => if i = 17 then 0x10 else 0) 0 0).xreg 17 = EID_FWFT →
        ret = (fun (_ : Nat) (_ : List Nat) => SbiRet.mk 0 3)
          ((Context.mk (fun i => if i = 17 then 0x10 else 0) 0 0).xreg 16)
          (sbiArgs (Context.mk (fun i => if i = 17 then 0x10 else 0) 0 0))) ∧
      ecall_from_vs (fun _ => SbiRet.mk 0 1) (fun _ _ => SbiRet.mk 0 2)
        (fun _ _ => SbiRet.mk 0 3) (Context.mk (fun i => if i = 17 then 0x10 else 0) 0 0) =
        some ((((Context.mk (fun i => if i = 17 then 0x10 else 0) 0 0).set_xreg 10
          (toU64 ret.error)).set_xreg 11 (toU64 ret.value)).set_sepc
          ((Context.mk (fun i => if i = 17 then 0x10 else 0) 0 0).sepc + 4)) :=
  ecall_from_vs_dispatch (fun _ => SbiRet.mk 0 1) (fun _ _ => SbiRet.mk 0 2)
    (fun _ _ => SbiRet.mk 0 3) (Context.mk (fun i => if i = 17 then 0x10 else 0) 0 0)
    (Or.inl (by decide))

/-- C8: for an SBI call whose extension id is none of Base (0x10),
RFENCE (0x52464E43) or FWFT (0x46574654), sbi_vs_mode_handler panics
(none): no SbiRet is ever written back to the guest. -/
theorem sbi_unknown_eid_panics (bh : Nat → SbiRet) (rh fh : Nat → List Nat → SbiRet)
    (ctx : Context)
    (h1 : ctx.xreg 17 ≠ EID_BASE) (h2 : ctx.xreg 17 ≠ EID_RFNC)
    (h3 : ctx.xreg 17 ≠ EID_FWFT) :
    sbi_vs_mode_handler bh rh fh ctx = none := by
  simp [sbi_vs_mode_handler, h1, h2, h3]

/-- Witness for sbi_unknown_eid_panics: x17 = 1 (the TIME extension id
would be 0x54494D45; 1 matches none of the three known ids). -/
theorem sbi_unknown_eid_panics_witness :
    sbi_vs_mode_handler (fun _ => SbiRet.mk 0 0) (fun _ _ => SbiRet.mk 0 0)
      (fun _ _ => SbiRet.mk 0 0) (Context.mk (fun _ => 1) 0 0) = none :=
  sbi_unknown_eid_panics _ _ _ _ (by decide) (by decide) (by decide)

/-- C5: evaluating the dispatch at a concrete guest load-page-fault
(htval = 0, so fault_addr 0x0 lies outside the PLIC and emulation
returns InvalidAddress) and a concrete store/AMO fault (emulation
returning ReservedRegister, stored value 0 fits u32), the error paths
deadlock: hs_forward_exception is entered while the arm still holds the
HYPERVISOR_DATA guard, its re-lock spins forever (none), and the
forward-to-guest writes never execute, so the guest never observes the
fault.  On emulation success the same faults exit with sepc advanced by
4 for the full-size pseudo-instruction word 3. -/
theorem page_fault_error_path_deadlocks :
    handle_load_guest_page_fault (fun _ => .error .InvalidAddress) 0 3 5
        (Context.mk (fun _ => 0) 0x200 0) 21 9 0x800 = .deadlocked ∧
    handle_store_guest_page_fault (fun _ _ => .error .ReservedRegister) 0 3 6
        (Context.mk (fun _ => 0) 0x200 0) 23 9 0x800 = .deadlocked ∧
    hs_forward_exception_call true (Context.mk (fun _ => 0) 0x200 0) 21 9 0x800
      = none ∧
    handle_load_guest_page_fault (fun _ => .ok 7) 0 3 5
        (Context.mk (fun _ => 0) 0x200 0) 21 9 0x800
      = .exitWith (update_sepc_by_htinst_value 3
          ((Context.mk (fun _ => 0) 0x200 0).set_xreg 5 7)) ∧
    (update_sepc_by_htinst_value 3
      ((Context.mk (fun _ => 0) 0x200 0).set_xreg 5 7)).sepc = 0x200 + 4 := by
  refine ⟨rfl, ?_, rfl, rfl, rfl⟩
  rw [handle_store_guest_page_fault]
  norm_num [hs_forward_exception_call, Context.xreg]

/-- C6 counterexample: with the emulated SSE bit currently enabled, a
CSRRW to senvcfg whose written value has bit 3 clear leaves senv_sse
enabled, not disabled: the code only reacts to writes whose bit 3 is
set. -/
theorem csrrw_bit3_clear_keeps_sse_enabled :
    ¬ ((csr_field ⟨0, false, true⟩ 0x10a .CSRRW 0 0).2.senv_sse = false) := by
  decide

/-- C6 amended: reads of senvcfg OR the emulated SSE bit (bit 3) into
the returned value; a write variant whose written value has bit 3 set
enables SSE for CSRRW/CSRRS/CSRRWI/CSRRSI and disables it for
CSRRC/CSRRCI, while any write whose value has bit 3 clear leaves the
emulated state unchanged; other CSR numbers pass through untouched. -/
theorem senvcfg_csr_field_semantics (z : ZicfissState) (op : ZicsrOp)
    (wv rv : Nat) :
    (csr_field z 0x10a op wv rv).1 = rv ||| ((if z.senv_sse then 1 else 0) <<< 3) ∧
    (csr_field z 0x10a op wv rv).2.senv_sse =
      (if (wv >>> 3) &&& 1 = 1 then
        (match op with
         | .CSRRC => false
         | .CSRRCI => false
         | _ => true)
       else z.senv_sse) ∧
    (csr_field z 0x10a op wv rv).2.ssp = z.ssp ∧
    ∀ n, n ≠ 0x10a → csr_field z n op wv rv = (rv, z) := by
  refine ⟨rfl, ?_, ?_, ?_⟩
  · by_cases hc : wv >>> 3 % 2 = 1
    · cases op <;> simp [csr_field, Nat.and_one_is_mod, hc]
    · cases op <;> simp [csr_field, Nat.and_one_is_mod, hc]
  · by_cases hc : wv >>> 3 % 2 = 1
    · cases op <;> simp [csr_field, Nat.and_one_is_mod, hc]
    · cases op <;> simp [csr_field, Nat.and_one_is_mod, hc]
  · intro n hn
    simp [csr_field, hn]

/-- Witness for senvcfg_csr_field_semantics: CSRRS of value 8 with SSE
initially off, plus the pass-through of the unrelated CSR 0x111. -/
theorem senvcfg_csr_field_witness :
    (csr_field ⟨0, false, false⟩ 0x10a .CSRRS 8 0).2.senv_sse =
      (if (8 >>> 3) &&& 1 = 1 then
        (match ZicsrOp.CSRRS with
         | .CSRRC => false
         | .CSRRCI => false
         | _ => true)
       else (false : Bool)) ∧
    csr_field ⟨0, false, false⟩ 0x111 .CSRRS 8 0x100 = (0x100, ⟨0, false, false⟩) :=
  ⟨(senvcfg_csr_field_semantics ⟨0, false, false⟩ .CSRRS 8 0).2.1,
   (senvcfg_csr_field_semantics ⟨0, false, false⟩ .CSRRS 8 0x100).2.2.2 0x111 (by decide)⟩

/-- C7: with shadow stack enabled for the current privilege, SSPOPCHK
(and C.SSPOPCHK) reads the word at the translated shadow-stack pointer,
increments ssp by 8, raises the pseudo VS-exception (cause 18, tval 3)
exactly when the popped value differs from the register operand, and
raises nothing when they agree. -/
theorem sspopchk_semantics (vs_trans g_trans mem : Nat → Nat)
    (z : ZicfissState) (ctx : Context) (rs1 rd : Nat)
    (h : is_ss_enable z ctx.sstatus = true) :
    zicfiss_instruction vs_trans g_trans mem z ctx (.SSPOPCHK rs1) =
      some ⟨{ z with ssp := (z.ssp + 8) % 2 ^ 64 }, ctx, mem,
        if mem (g_trans (vs_trans z.ssp)) = ctx.xreg rs1 then none
        else some (SOFTWARE_CHECK_EXCEPTION, SHADOW_STACK_FAULT)⟩ ∧
    zicfiss_instruction vs_trans g_trans mem z ctx (.C_SSPOPCHK rd) =
      some ⟨{ z with ssp := (z.ssp + 8) % 2 ^ 64 }, ctx, mem,
        if mem (g_trans (vs_trans z.ssp)) = ctx.xreg rd then none
        else some (SOFTWARE_CHECK_EXCEPTION, SHADOW_STACK_FAULT)⟩ := by
  constructor
  · by_cases hm : mem (g_trans (vs_trans z.ssp)) = ctx.xreg rs1 <;>
      simp [zicfiss_instruction, h, ss_pop, hm]
  · by_cases hm : mem (g_trans (vs_trans z.ssp)) = ctx.xreg rd <;>
      simp [zicfiss_instruction, h, ss_pop, hm]

/-- Witness for sspopchk_semantics: senv_sse on, sstatus.SPP = 0, the
shadow stack holds 5, x7 = 5 (match) and x8 = 9 (mismatch). -/
theorem sspopchk_semantics_witness :
    zicfiss_instruction (fun a => a) (fun a => a) (fun _ => 5) ⟨64, false, true⟩
        (Context.mk (fun i => if i = 7 then 5 else 9) 0 0) (.SSPOPCHK 7) =
      some ⟨⟨(64 + 8) % 2 ^ 64, false, true⟩,
        Context.mk (fun i => if i = 7 then 5 else 9) 0 0, fun _ => 5,
        if (fun _ : Nat => 5) ((fun a : Nat => a) ((fun a : Nat => a) 64)) =
            (Context.mk (fun i => if i = 7 then 5 else 9) 0 0).xreg 7 then none
        else some (SOFTWARE_CHECK_EXCEPTION, SHADOW_STACK_FAULT)⟩ ∧
    zicfiss_instruction (fun a => a) (fun a => a) (fun _ => 5) ⟨64, false, true⟩
        (Context.mk (fun i => if i = 7 then 5 else 9) 0 0) (.C_SSPOPCHK 8) =
      some ⟨⟨(64 + 8) % 2 ^ 64, false, true⟩,
        Context.mk (fun i => if i = 7 then 5 else 9) 0 0, fun _ => 5,
        if (fun _ : Nat => 5) ((fun a : Nat => a) ((fun a : Nat => a) 64)) =
            (Context.mk (fun i => if i = 7 then 5 else 9) 0 0).xreg 8 then none
        else some (SOFTWARE_CHECK_EXCEPTION, SHADOW_STACK_FAULT)⟩ :=
  sspopchk_semantics (fun a => a) (fun a => a) (fun _ => 5) ⟨64, false, true⟩
    (Context.mk (fun i => if i = 7 then 5 else 9) 0 0) 7 8 (by decide)

/-- C9: create_device_map contains the identity memory map of every
registered device (uart, each virtio, initrd, plic, clint, pci), and
every map in the list is an identity map carrying exactly
PTE_FLAGS_FOR_DEVICE. -/
theorem create_device_map_contains_all_devices (d : Devices) :
    device_memmap d.uart ∈ create_device_map d ∧
    device_memmap d.initrd ∈ create_device_map d ∧
    device_memmap d.plic ∈ create_device_map d ∧
    device_memmap d.clint ∈ create_device_map d ∧
    device_memmap d.pci ∈ create_device_map d ∧
    (∀ v ∈ d.virtioDevices, device_memmap v ∈ create_device_map d) ∧
    (∀ m ∈ create_device_map d, m.flags = PTE_FLAGS_FOR_DEVICE ∧ m.virt = m.phys) := by
  refine ⟨?_, ?_, ?_, ?_, ?_, ?_, ?_⟩
  · simp [create_device_map]
  · simp [create_device_map]
  · simp [create_device_map]
  · simp [create_device_map]
  · simp [create_device_map]
  · intro v hv
    simp only [create_device_map, List.mem_append]
    left
    simp only [List.mem_flatMap]
    exact ⟨v, hv, by simp⟩
  · intro m hm
    simp only [create_device_map, List.mem_append] at hm
    rcases hm with hm | hm
    · simp only [List.mem_flatMap] at hm
      obtain ⟨v, _, hv⟩ := hm
      simp only [List.mem_cons, List.mem_singleton] at hv
      rcases hv with hv | hv | hv
      · subst hv; exact ⟨rfl, rfl⟩
      · subst hv; exact ⟨rfl, rfl⟩
      · cases hv
    · simp only [List.mem_cons, List.mem_singleton] at hm
      rcases hm with hm | hm | hm | hm | hm | hm
      · subst hm; exact ⟨rfl, rfl⟩
      · subst hm; exact ⟨rfl, rfl⟩
      · subst hm; exact ⟨rfl, rfl⟩
      · subst hm; exact ⟨rfl, rfl⟩
      · subst hm; exact ⟨rfl, rfl⟩
      · cases hm

/-- Witness for create_device_map_contains_all_devices on the QEMU virt
layout: a virtio device and the flags of a concrete member. -/
theorem create_device_map_witness :
    device_memmap ⟨0x10001000, 0x1000⟩ ∈ create_device_map
      ⟨⟨0x10000000, 0x100⟩, [⟨0x10001000, 0x1000⟩], ⟨0x88000000, 0x100000⟩,
       ⟨0xc000000, 0x600000⟩, 9, ⟨0x2000000, 0x100000⟩, ⟨0x30000000, 0x1000⟩⟩ ∧
    (device_memmap ⟨0x10000000, 0x100⟩).flags = PTE_FLAGS_FOR_DEVICE ∧
    (device_memmap ⟨0x10000000, 0x100⟩).virt = (device_memmap ⟨0x10000000, 0x100⟩).phys :=
  ⟨(create_device_map_contains_all_devices
      ⟨⟨0x10000000, 0x100⟩, [⟨0x10001000, 0x1000⟩], ⟨0x88000000, 0x100000⟩,
       ⟨0xc000000, 0x600000⟩, 9, ⟨0x2000000, 0x100000⟩, ⟨0x30000000, 0x1000⟩⟩).2.2.2.2.2.1
      ⟨0x10001000, 0x1000⟩ (by decide),
   (create_device_map_contains_all_devices
      ⟨⟨0x10000000, 0x100⟩, [⟨0x10001000, 0x1000⟩], ⟨0x88000000, 0x100000⟩,
       ⟨0xc000000, 0x600000⟩, 9, ⟨0x2000000, 0x100000⟩, ⟨0x30000000, 0x1000⟩⟩).2.2.2.2.2.2
      (device_memmap ⟨0x10000000, 0x100⟩) (by decide)⟩

end Hikami
